import Mathlib

/-!
Verification of the oracle update scheduling and transaction-submission
pipeline of the shade-agent oracle repository.

The JavaScript sources are embedded shallowly:

* JavaScript numbers are IEEE-754 binary64 values, modelled exactly as the
  rationals they denote (`roundB64` is round-to-nearest, ties-to-even at 53
  significand bits, with the subnormal range clamped at scale 2^(-1074)).
  `JsNum` adds the non-finite values NaN and the two infinities.
* Stateful handlers become pure functions from an environment record (the
  outcomes of the external calls: config store, chain RPC, HTTP fetch,
  remote signer) to a result record carrying the HTTP response, the ordered
  list of config-store writes, and counters of transaction build /
  broadcast attempts.
* The module-global `updatingOracles` set of `scheduler.js` becomes an
  explicit `Finset String` threaded through `executeOracleUpdate`.
-/

deriving instance DecidableEq for Except

/-! ## Exact binary64 arithmetic over the rationals -/

/-- Exponentiation by squaring with structural fuel, so that concrete
powers reduce inside proofs; `natPow_eq` shows it agrees with `Nat.pow`. -/
def natPowAux : Nat → Nat → Nat → Nat
  | 0, _, _ => 1
  | fuel + 1, b, e =>
      if e = 0 then 1
      else if e % 2 = 1 then b * natPowAux fuel (b * b) (e / 2)
      else natPowAux fuel (b * b) (e / 2)

def natPow (b e : Nat) : Nat := natPowAux (e + 1) b e

theorem natPowAux_eq (fuel : Nat) : ∀ (b e : Nat), e < 2 ^ fuel → natPowAux fuel b e = b ^ e := by
  induction fuel with
  | zero =>
    intro b e h
    interval_cases e
    rfl
  | succ fuel ih =>
    intro b e h
    by_cases he : e = 0
    · subst he
      simp [natPowAux]
    · have hlt : e / 2 < 2 ^ fuel := by
        rw [pow_succ] at h
        omega
      have hrec := ih (b * b) (e / 2) hlt
      have hbb : (b * b) ^ (e / 2) = b ^ (2 * (e / 2)) := by
        rw [two_mul, pow_add]
        rw [← mul_pow]
      by_cases ho : e % 2 = 1
      · have he2 : 2 * (e / 2) + 1 = e := by omega
        simp only [natPowAux, he, ho, if_false, if_true, ite_false, ite_true]
        rw [hrec, hbb, ← pow_succ', he2]
      · have he2 : 2 * (e / 2) = e := by omega
        simp only [natPowAux, he, ho, if_false, ite_false]
        rw [hrec, hbb, he2]

theorem natPow_eq (b e : Nat) : natPow b e = b ^ e := by
  unfold natPow
  exact natPowAux_eq (e + 1) b e (lt_of_lt_of_le (Nat.lt_two_pow e) (Nat.pow_le_pow_right (by omega) (by omega)))

/-- Boolean equality of rationals via the normalized representation. -/
def ratEqB (a b : ℚ) : Bool := a.num == b.num && a.den == b.den

/-- Boolean strict order on rationals by cross-multiplication. -/
def ratLtB (a b : ℚ) : Bool := a.num * (b.den : Int) < b.num * (a.den : Int)

/-- Boolean order on rationals by cross-multiplication. -/
def ratLeB (a b : ℚ) : Bool := a.num * (b.den : Int) ≤ b.num * (a.den : Int)

theorem ratEqB_iff (a b : ℚ) : ratEqB a b = true ↔ a = b := by
  unfold ratEqB
  rw [Bool.and_eq_true, beq_iff_eq, beq_iff_eq]
  constructor
  · intro h
    obtain ⟨h1, h2⟩ := h
    cases a
    cases b
    simp_all
  · intro h
    subst h
    exact ⟨rfl, rfl⟩

theorem ratLtB_iff (a b : ℚ) : ratLtB a b = true ↔ a < b := by
  unfold ratLtB
  rw [decide_eq_true_eq]
  exact Rat.lt_def.symm

theorem ratLeB_iff (a b : ℚ) : ratLeB a b = true ↔ a ≤ b := by
  unfold ratLeB
  rw [decide_eq_true_eq]
  exact Rat.le_def.symm

/-- Binary logarithm on naturals by fuelled structural recursion (the fuel
bounds the bit length; 8192 bits covers every value these models meet). -/
def log2fuel : Nat → Nat → Nat
  | 0, _ => 0
  | fuel + 1, n => if 2 ≤ n then log2fuel fuel (n / 2) + 1 else 0

/-- `natLog2 n` is the floor of the binary logarithm of `n` (0 for `n = 0`). -/
def natLog2 (n : Nat) : Nat := log2fuel 8192 n

/-- Two to an integer power, as a rational. -/
def pow2 (e : Int) : ℚ :=
  if 0 ≤ e then ((natPow 2 e.toNat : Nat) : ℚ) else (1 : ℚ) / ((natPow 2 (-e).toNat : Nat) : ℚ)

/-- Floor of the base-two logarithm of a positive rational: the unique `e`
with `2^e ≤ q < 2^(e+1)` (junk value for `q ≤ 0`). -/
def floorLog2 (q : ℚ) : Int :=
  if ratLeB 1 q then (natLog2 (⌊q⌋).toNat : Int)
  else if ratEqB q (pow2 (-(natLog2 (⌊1 / q⌋).toNat : Int))) then -(natLog2 (⌊1 / q⌋).toNat : Int)
  else -(natLog2 (⌊1 / q⌋).toNat : Int) - 1

/-- Round a rational to the nearest integer, ties to even. -/
def roundHalfEven (q : ℚ) : Int :=
  if ratLtB (q - ((⌊q⌋ : Int) : ℚ)) (1 / 2) then ⌊q⌋
  else if ratLtB (1 / 2) (q - ((⌊q⌋ : Int) : ℚ)) then ⌊q⌋ + 1
  else if ⌊q⌋ % 2 = 0 then ⌊q⌋ else ⌊q⌋ + 1

/-- Round a rational to the nearest integer, ties toward positive infinity
(the rounding used by `Number.prototype.toFixed` and `Math.round`). -/
def roundHalfUp (q : ℚ) : Int := ⌊q + 1 / 2⌋

/-- Round a positive rational to the binary64 grid (53-bit significand,
subnormal scale clamped at 2^(-1074)); the exponent is not clamped above,
overflow to Infinity is handled by `ratToJs`. -/
def roundB64pos (q : ℚ) : ℚ :=
  ((roundHalfEven (q / pow2 (max (floorLog2 q - 52) (-1074))) : Int) : ℚ)
    * pow2 (max (floorLog2 q - 52) (-1074))

/-- Round any rational to the binary64 grid (round to nearest, ties even). -/
def roundB64 (q : ℚ) : ℚ :=
  if ratEqB q 0 then 0
  else if ratLtB q 0 then -(roundB64pos (-q))
  else roundB64pos q

/-- A JavaScript number: NaN, a signed infinity, or a finite binary64 value
represented by the rational it denotes. -/
inductive JsNum where
  | nan : JsNum
  | inf (positive : Bool) : JsNum
  | fin (q : ℚ) : JsNum
deriving DecidableEq

/-- Overflow bound of binary64: rounded magnitudes at or above `2^1024`
become infinities. -/
def b64limit : ℚ := ((natPow 2 1024 : Nat) : ℚ)

/-- Convert an exact rational to the JavaScript number it rounds to. -/
def ratToJs (q : ℚ) : JsNum :=
  if ratLeB b64limit (roundB64 q) then JsNum.inf true
  else if ratLeB (roundB64 q) (-b64limit) then JsNum.inf false
  else JsNum.fin (roundB64 q)

def jsIsNaN : JsNum → Bool
  | JsNum.nan => true
  | _ => false

/-- JavaScript strict equality on numbers (`===`): NaN equals nothing. -/
def jsStrictEq : JsNum → JsNum → Bool
  | JsNum.inf a, JsNum.inf b => a == b
  | JsNum.fin a, JsNum.fin b => ratEqB a b
  | _, _ => false

/-- JavaScript `<` on numbers. -/
def jsLtB : JsNum → JsNum → Bool
  | JsNum.nan, _ => false
  | _, JsNum.nan => false
  | JsNum.inf true, _ => false
  | JsNum.inf false, JsNum.inf false => false
  | JsNum.inf false, _ => true
  | JsNum.fin _, JsNum.inf b => b
  | JsNum.fin a, JsNum.fin b => ratLtB a b

/-- JavaScript `>=` on numbers. -/
def jsGeB : JsNum → JsNum → Bool
  | JsNum.nan, _ => false
  | _, JsNum.nan => false
  | JsNum.inf true, _ => true
  | JsNum.inf false, JsNum.inf false => true
  | JsNum.inf false, _ => false
  | JsNum.fin _, JsNum.inf b => !b
  | JsNum.fin a, JsNum.fin b => ratLeB b a

/-- JavaScript subtraction on numbers. -/
def jsSubNum : JsNum → JsNum → JsNum
  | JsNum.nan, _ => JsNum.nan
  | _, JsNum.nan => JsNum.nan
  | JsNum.inf a, JsNum.inf b => if a == b then JsNum.nan else JsNum.inf a
  | JsNum.inf a, JsNum.fin _ => JsNum.inf a
  | JsNum.fin _, JsNum.inf b => JsNum.inf (!b)
  | JsNum.fin a, JsNum.fin b => ratToJs (a - b)

/-- JavaScript multiplication on numbers. -/
def jsMulNum : JsNum → JsNum → JsNum
  | JsNum.nan, _ => JsNum.nan
  | _, JsNum.nan => JsNum.nan
  | JsNum.inf a, JsNum.inf b => JsNum.inf (a == b)
  | JsNum.inf a, JsNum.fin b => if ratEqB b 0 then JsNum.nan else JsNum.inf (a == ratLtB 0 b)
  | JsNum.fin b, JsNum.inf a => if ratEqB b 0 then JsNum.nan else JsNum.inf (a == ratLtB 0 b)
  | JsNum.fin a, JsNum.fin b => ratToJs (a * b)

/-- `Math.round`: nearest integer, ties toward positive infinity.  A finite
binary64 input of magnitude at least 2^52 is already integral, so the exact
rational computation agrees with the double result. -/
def jsRoundNum : JsNum → JsNum
  | JsNum.nan => JsNum.nan
  | JsNum.inf b => JsNum.inf b
  | JsNum.fin q => JsNum.fin ((roundHalfUp q : ℚ))

/-- `Math.floor` on a JavaScript number. -/
def jsFloorNum : JsNum → JsNum
  | JsNum.nan => JsNum.nan
  | JsNum.inf b => JsNum.inf b
  | JsNum.fin q => JsNum.fin ((⌊q⌋ : ℚ))

/-! ## `parseFloat` and `Number.prototype.toFixed` -/

def isJsWhitespace (c : Char) : Bool :=
  c = ' ' || c = '\t' || c = '\n' || c = '\r' || c = '\x0b' || c = '\x0c'

def digitsToNat (ds : List Char) : Nat :=
  ds.foldl (fun a c => a * 10 + (c.toNat - 48)) 0

/-- Ten to an integer power, as a rational. -/
def tenPow (e : Int) : ℚ :=
  if 0 ≤ e then ((natPow 10 e.toNat : Nat) : ℚ) else (1 : ℚ) / ((natPow 10 (-e).toNat : Nat) : ℚ)

/-- Signed digit run of an exponent part; 0 when no digits follow (the
marker is then not part of the accepted prefix). -/
def parseSignedDigits (cs : List Char) : Int :=
  match cs with
  | '-' :: r => -(digitsToNat (r.takeWhile Char.isDigit) : Int) *
      (if (r.takeWhile Char.isDigit).isEmpty then 0 else 1)
  | '+' :: r => (digitsToNat (r.takeWhile Char.isDigit) : Int) *
      (if (r.takeWhile Char.isDigit).isEmpty then 0 else 1)
  | r => (digitsToNat (r.takeWhile Char.isDigit) : Int) *
      (if (r.takeWhile Char.isDigit).isEmpty then 0 else 1)

/-- Parse an optional exponent part (`e`/`E`, optional sign, digits) at the
head of the character list; an exponent marker not followed by digits is not
part of the accepted prefix and contributes exponent 0. -/
def parseExponentPart (cs : List Char) : Int :=
  match cs with
  | 'e' :: rest => parseSignedDigits rest
  | 'E' :: rest => parseSignedDigits rest
  | _ => 0

/-- `parseFloat`: skip leading whitespace, read an optional sign, then the
longest prefix that is a `StrDecimalLiteral` (`Infinity`, or digits with an
optional fraction and exponent); NaN when no prefix parses.  The exact
decimal value is then rounded to binary64. -/
def jsParseFloat (s : String) : JsNum :=
  let cs := s.toList.dropWhile isJsWhitespace
  let (neg, cs) : Bool × List Char :=
    match cs with
    | '-' :: r => (true, r)
    | '+' :: r => (false, r)
    | _ => (false, cs)
  if "Infinity".toList.isPrefixOf cs then JsNum.inf (!neg)
  else
    let ds1 := cs.takeWhile Char.isDigit
    let cs1 := cs.drop ds1.length
    let (ds2, cs2) : List Char × List Char :=
      match cs1 with
      | '.' :: r => (r.takeWhile Char.isDigit, r.drop (r.takeWhile Char.isDigit).length)
      | _ => ([], cs1)
    if ds1.isEmpty && ds2.isEmpty then JsNum.nan
    else
      let e := parseExponentPart cs2
      let mant : ℚ := (digitsToNat ds1 : ℚ) + (digitsToNat ds2 : ℚ) / ((natPow 10 ds2.length : Nat) : ℚ)
      ratToJs ((if neg then -mant else mant) * tenPow e)

/-- `String.prototype.toLowerCase`, modelled character-wise (the addresses
compared by the handlers are ASCII hex strings). -/
def strToLower (s : String) : String := String.mk (s.toList.map Char.toLower)

/-- Left-pad a string with a fill character up to the given length
(`String.prototype.padStart`). -/
def padStart (s : String) (len : Nat) (c : Char) : String :=
  String.mk (List.replicate (len - s.length) c) ++ s

/-- ECMAScript `Number::toString` for a finite positive double that is at
least 10^21 (hence integral): the shortest significand that round-trips,
printed in exponential notation. -/
def numToStringPos (x : ℚ) : String :=
  let xi : Nat := x.num.toNat
  let n : Nat := (toString xi).length
  let found := (List.range 17).findSome? (fun j =>
    let k : Nat := j + 1
    let s := (roundHalfEven ((xi : ℚ) / tenPow ((n : Int) - (k : Int)))).toNat
    if ratEqB (roundB64 ((s : ℚ) * tenPow ((n : Int) - (k : Int)))) x then some (k, s) else none)
  match found with
  | some (k, s) =>
    let ds := padStart (toString s) k '0'
    (ds.take 1) ++ (if k = 1 then "" else "." ++ ds.drop 1) ++ "e+" ++ toString (n - 1)
  | none => toString xi

/-- `toFixed` on a nonnegative finite double below 10^21: round the value at
`f` fraction digits (ties away) and print with the decimal point inserted. -/
def toFixedPos (x : ℚ) (f : Nat) : String :=
  if ratLeB ((natPow 10 21 : Nat) : ℚ) x then numToStringPos x
  else
    let n : Nat := (roundHalfUp (x * ((natPow 10 f : Nat) : ℚ))).toNat
    let m := toString n
    if f = 0 then m
    else
      let m := padStart m (f + 1) '0'
      let k := m.length
      (m.take (k - f)) ++ "." ++ (m.drop (k - f))

/-- `Number.prototype.toFixed`. -/
def jsToFixed (x : JsNum) (f : Nat) : String :=
  match x with
  | JsNum.nan => "NaN"
  | JsNum.inf b => if b then "Infinity" else "-Infinity"
  | JsNum.fin q => if ratLtB q 0 then "-" ++ toFixedPos (-q) f else toFixedPos q f

/-! ## Fixed-point codec (`theta.js`: `convertToDecimal`) -/

/-- `theta.js` `convertToDecimal(bigIntValue, decimals, decimalPlaces)`:
render the raw integer as a string, left-pad it to at least `decimals + 1`
digits, split off the low `decimals` digits as the fraction, then pass the
resulting decimal string through `parseFloat(...).toFixed(decimalPlaces)`.
The source gives `decimalPlaces` the default value 6; callers here always
pass it explicitly. -/
def convertToDecimal (bigIntValue : Nat) (decimals : Nat) (decimalPlaces : Nat) : String :=
  let strValue := toString bigIntValue
  let strValue := if strValue.length ≤ decimals then padStart strValue (decimals + 1) '0' else strValue
  let decimalPos := strValue.length - decimals
  let result := (strValue.take decimalPos) ++ "." ++ (strValue.drop decimalPos)
  jsToFixed (jsParseFloat result) decimalPlaces

/-! ## Wallet balance checks (`wallet-manager.js`) -/

/-- Outcome of `Evm.getBalance`: the raw balance in wei and the chain's
decimals count. -/
structure WalletBalanceInfo where
  balanceWei : Nat
  decimals : Nat
deriving DecidableEq

/-- `wallet-manager.js` `formatBalance(balance, decimals, decimalPlaces)`:
identical digit-slicing to `convertToDecimal` followed by
`parseFloat(...).toFixed(...)`.  The source's `try`/`catch` cannot fire in
this total model. -/
def formatBalance (balance : Nat) (decimals : Nat) (decimalPlaces : Nat) : String :=
  let strValue := toString balance
  let strValue := if strValue.length ≤ decimals then padStart strValue (decimals + 1) '0' else strValue
  let decimalPos := strValue.length - decimals
  let result := (strValue.take decimalPos) ++ "." ++ (strValue.drop decimalPos)
  jsToFixed (jsParseFloat result) decimalPlaces

/-- Result record of `checkMinimumBalance`. -/
structure BalanceCheck where
  balance : JsNum
  minAmount : ℚ
  hasMinimum : Bool
  shortfall : JsNum
deriving DecidableEq

/-- `wallet-manager.js` `checkMinimumBalance(address, minAmount)`: format
the wallet balance at 6 display places, re-parse it with `parseFloat`, and
compare against the minimum; the shortfall is `minAmount - balanceValue`
when below the minimum, else 0. -/
def checkMinimumBalance (info : WalletBalanceInfo) (minAmount : ℚ) : BalanceCheck :=
  let balanceValue := jsParseFloat (formatBalance info.balanceWei info.decimals 6)
  { balance := balanceValue
    minAmount := minAmount
    hasMinimum := jsGeB balanceValue (JsNum.fin minAmount)
    shortfall := if jsLtB balanceValue (JsNum.fin minAmount)
      then jsSubNum (JsNum.fin minAmount) balanceValue
      else JsNum.fin 0 }

/-! ## JSON documents and the dotted-path extractor
(`pages/api/oracles/[id]/update.js`: `extractValueFromPath`) -/

/-- A JSON value as produced by `response.json()`.  Numbers are finite
binary64 values, modelled by the rational they denote. -/
inductive Json where
  | num (q : ℚ) : Json
  | str (s : String) : Json
  | bool (b : Bool) : Json
  | null : Json
  | obj (fields : List (String × Json)) : Json
  | arr (elems : List Json) : Json

/-- JavaScript `typeof v === 'object'` for a JSON value (true for objects,
arrays and `null`). -/
def typeofIsObject : Json → Bool
  | Json.obj _ => true
  | Json.arr _ => true
  | Json.null => true
  | _ => false

/-- Property access `value[key]` on a JSON value, `none` for `undefined`.
Objects look the key up among own fields; arrays expose canonical numeric
indices and `length`.  Inherited prototype properties are not modelled
(treated as absent), which is the relevant behaviour for JSON data. -/
def jsLookup : Json → String → Option Json
  | Json.obj fields, k => (fields.find? (fun p => p.1 == k)).map Prod.snd
  | Json.arr elems, k =>
      if k = "length" then some (Json.num (elems.length : ℚ))
      else
        match k.toNat? with
        | some i => if toString i = k then elems.get? i else none
        | none => none
  | _, _ => none

/-- The distinct error exits of `extractValueFromPath`, by thrown message. -/
inductive ExtractErr where
  /-- "Path not found at step i ... value is null/undefined". -/
  | nullAtStep (step : Nat) : ExtractErr
  /-- "Path not found at step i ... cannot access property of (typeof)". -/
  | nonObjectAtStep (step : Nat) : ExtractErr
  /-- "Path ... exists but value is null/undefined". -/
  | terminalMissing : ExtractErr
  /-- "Value at path ... is not a valid number" (string whose parse is NaN). -/
  | notNumericString (s : String) : ExtractErr
  /-- "Value at path ... is not a number or numeric string". -/
  | wrongTypeLeaf : ExtractErr
deriving DecidableEq

/-- The `for` loop of `extractValueFromPath`: walk the keys left to right,
failing if the current value is `null`/`undefined` or not of object type,
and return the value reached (possibly `undefined`, checked by the caller).
The step counter only feeds the thrown messages. -/
def descendLoop : Nat → Option Json → List String → Except ExtractErr (Option Json)
  | _, v, [] => Except.ok v
  | i, none, _ :: _ => Except.error (ExtractErr.nullAtStep i)
  | i, some Json.null, _ :: _ => Except.error (ExtractErr.nullAtStep i)
  | i, some v, k :: ks =>
      if typeofIsObject v then descendLoop (i + 1) (jsLookup v k) ks
      else Except.error (ExtractErr.nonObjectAtStep i)

/-- `extractValueFromPath(obj, path)`: split the path on dots, walk the
document, then validate the leaf: a string is passed through `parseFloat`
and rejected only when the parse is NaN; a number is returned as is (the
source's `isNaN` check on a number leaf cannot fire for JSON-derived data);
anything else is rejected as non-numeric. -/
def extractValueFromPath (document : Json) (path : String) : Except ExtractErr JsNum :=
  match descendLoop 1 (some document) (path.splitOn ".") with
  | Except.error e => Except.error e
  | Except.ok none => Except.error ExtractErr.terminalMissing
  | Except.ok (some Json.null) => Except.error ExtractErr.terminalMissing
  | Except.ok (some (Json.str s)) =>
      match jsParseFloat s with
      | JsNum.nan => Except.error (ExtractErr.notNumericString s)
      | v => Except.ok v
  | Except.ok (some (Json.num q)) => Except.ok (JsNum.fin q)
  | Except.ok (some _) => Except.error ExtractErr.wrongTypeLeaf

/-! ## Shared transaction-pipeline records (`theta.js`) -/

/-- On-chain oracle record returned by `getOracle` (contract `SimpleOracle`):
`[value, lastUpdateBlock, creator, hasError, description]`. -/
structure ChainOracle where
  value : Nat
  lastUpdateBlock : Nat
  creator : String
  hasError : Bool
  description : String
deriving DecidableEq

/-- Outcome of `updateOracle` in `theta.js`: the prepared transaction with
the derived sender address (transaction body and signing hashes are opaque
to the properties verified here). -/
structure PrepareResult where
  senderAddress : String
deriving DecidableEq

/-- Outcome of a successful `Evm.broadcastTx`. -/
structure TxResult where
  hash : String
  blockNumber : Nat
deriving DecidableEq

/-- A thrown signing/broadcast error as observed by
`signAndBroadcastTransaction`: its `message` and optional `details`. -/
structure SBErr where
  message : String
  details : Option String
deriving DecidableEq

/-- Substring test on character lists (`String.prototype.includes`). -/
def listHasInfix (needle : List Char) : List Char → Bool
  | [] => needle.isEmpty
  | c :: rest => needle.isPrefixOf (c :: rest) || listHasInfix needle rest

/-- `haystack.includes(needle)`. -/
def strIncludes (haystack needle : String) : Bool :=
  listHasInfix needle.toList haystack.toList

/-- The error-message mapping of `signAndBroadcastTransaction` in
`theta.js`: the raw broadcast failure is rethrown with an operator-facing
message chosen by substring matching. -/
def mapBroadcastError (e : SBErr) : String :=
  if strIncludes e.message "could not replace existing tx" then
    "Transaction replacement error - please wait a moment before trying again."
  else if strIncludes e.message "insufficient funds" then
    "Insufficient funds for transaction."
  else if strIncludes e.message "already known" then
    "Transaction already pending - please wait for confirmation."
  else if (match e.details with | some d => strIncludes d "ALREADY_EXISTS" | none => false) then
    "Transaction already pending - please wait for confirmation."
  else if strIncludes e.message "nonce too low" then
    "Nonce error - transaction may have already been processed."
  else if (match e.details with | some d => strIncludes d "nonce too low" | none => false) then
    "Nonce error - transaction may have already been processed."
  else
    "Failed to broadcast transaction."

/-- Modelled from the spec: `getDerivationPath` is imported by the update
route from `wallet-manager.js` but its definition is not part of the given
sources; per the specification the derivation path is defined to equal the
oracle id (section 4.3, and the `derivationPath = oracleId` convention used
by `deriveOracleWallet`). -/
def getDerivationPath (oracleId : String) : String := oracleId

/-! ## Persisted oracle configuration (`oracle-manager.js` store) -/

/-- The fields of a stored oracle configuration that the update pipeline
reads.  `none` models an absent (`undefined`) field.  Timestamps are
milliseconds since the epoch (the ISO strings stored by the handler parse
back to exactly these values). -/
structure OracleConfig where
  priceMultiplier : Option ℚ
  multiplier : Option ℚ
  updateInterval : Option ℚ
  updateIntervalMinutes : Option ℚ
  apiEndpoint : String
  dataPath : String
  lastUpdate : Option Int
deriving DecidableEq

/-- A partial update passed to `updateOracleConfig(oracleId, updates)`:
only the fields that appear in the JavaScript object literal are `some`. -/
structure ConfigPatch where
  priceMultiplier : Option ℚ
  updateInterval : Option ℚ
  lastUpdate : Option Int
  nextUpdate : Option Int
  hasError : Option Bool
  errorMessage : Option String
  lastErrorAt : Option Int
  lastTxHash : Option String
  lastValue : Option JsNum
deriving DecidableEq

/-- The empty partial update. -/
def ConfigPatch.empty : ConfigPatch :=
  { priceMultiplier := none, updateInterval := none, lastUpdate := none
    nextUpdate := none, hasError := none, errorMessage := none
    lastErrorAt := none, lastTxHash := none, lastValue := none }

/-- The error patch written by the update route's outer `catch`. -/
def errorPatch (now : Int) (msg : String) : ConfigPatch :=
  { ConfigPatch.empty with
    hasError := some true,
    errorMessage := some msg,
    lastErrorAt := some now }

/-- The success patch written after a broadcast acknowledgment. -/
def successPatch (now nextUpdate : Int) (txHash : String) (lastValue : JsNum) : ConfigPatch :=
  { ConfigPatch.empty with
    lastUpdate := some now,
    nextUpdate := some nextUpdate,
    hasError := some false,
    errorMessage := some "",
    lastTxHash := some txHash,
    lastValue := some lastValue }

/-- JavaScript `a || d` for an optionally-present number: an absent field
and the falsy value 0 both fall through to the default. -/
def jsOrQ (o : Option ℚ) (d : ℚ) : ℚ :=
  match o with
  | none => d
  | some x => if ratEqB x 0 then d else x

/-- `new Date(t)` clips its millisecond argument to an integer, truncating
toward zero. -/
def timeClip (q : ℚ) : Int :=
  if ratLeB 0 q then ⌊q⌋ else -⌊-q⌋

/-! ## The periodic update route
(`pages/api/oracles/[id]/update.js`: `handler`) -/

/-- The backward-compatibility backfill of `priceMultiplier`: an absent
field is replaced by `multiplier || 10000` and the replacement is persisted
back to the config store. -/
def backfillPM (cfg : OracleConfig) : ℚ × List ConfigPatch :=
  match cfg.priceMultiplier with
  | some pm => (pm, [])
  | none =>
      let pm := jsOrQ cfg.multiplier 10000
      (pm, [{ ConfigPatch.empty with priceMultiplier := some pm }])

/-- The backward-compatibility backfill of `updateInterval`: an absent
field is replaced by `updateIntervalMinutes || 60` and persisted back. -/
def backfillUI (cfg : OracleConfig) : ℚ × List ConfigPatch :=
  match cfg.updateInterval with
  | some ui => (ui, [])
  | none =>
      let ui := jsOrQ cfg.updateIntervalMinutes 60
      (ui, [{ ConfigPatch.empty with updateInterval := some ui }])

/-- Outcomes of the external calls the update route performs, in source
order.  `balanceWei` is the wallet's actual balance; the route never reads
it (it performs no balance check), it is part of the environment so that
this fact is expressible. -/
structure UpdateEnv where
  method : String
  oracleId : Option String
  config : Option OracleConfig
  chain : Option ChainOracle
  api : Except String Json
  prepare : Except String PrepareResult
  signBroadcast : Except SBErr TxResult
  balanceWei : Nat
  now : Int

/-- The HTTP responses of the periodic update route. -/
inductive UpdateResponse where
  /-- 405, non-POST. -/
  | methodNotAllowed : UpdateResponse
  /-- 400, missing oracle id. -/
  | missingId : UpdateResponse
  /-- 404, no stored config. -/
  | notFound : UpdateResponse
  /-- 404, `getOracle` threw: not deployed on chain. -/
  | notDeployed : UpdateResponse
  /-- 400, fetch failed / non-2xx / JSON parse error. -/
  | apiFetchFailed (msg : String) : UpdateResponse
  /-- 400, `extractValueFromPath` threw. -/
  | extractionFailed (e : ExtractErr) : UpdateResponse
  /-- 400, extracted price NaN. -/
  | invalidPrice : UpdateResponse
  /-- 400, computed value NaN. -/
  | invalidFinalValue : UpdateResponse
  /-- 200 with `skipped: true`: value unchanged. -/
  | skipped (oldValue newValue : JsNum) : UpdateResponse
  /-- 200: broadcast acknowledged. -/
  | success (oldValue newValue : JsNum) (txHash : String) (blockNumber : Nat) : UpdateResponse
  /-- 500 from the outer catch. -/
  | serverError (msg : String) : UpdateResponse
deriving DecidableEq

/-- Result of one invocation of the periodic update route: the response,
the ordered config-store writes, and how many transaction build
(`updateOracle`) and sign/broadcast (`signAndBroadcastTransaction`)
attempts were made. -/
structure HandlerResult where
  response : UpdateResponse
  configWrites : List ConfigPatch
  prepareCalls : Nat
  broadcastCalls : Nat
deriving DecidableEq

/-- `pages/api/oracles/[id]/update.js` `handler`, in source order: method
check, id check, config load, `priceMultiplier`/`updateInterval` backfills,
on-chain read (`currentValue = Number(oracleData[0])`), API fetch, path
extraction, price validation, `newValue = Math.round(rawPrice *
priceMultiplier)`, the value-unchanged skip, then the blockchain phase
whose thrown errors are converted by the outer catch into an error patch
and a 500 response. -/
def updateHandler (env : UpdateEnv) : HandlerResult :=
  if env.method = "POST" then
    match env.oracleId with
    | none => { response := UpdateResponse.missingId, configWrites := [], prepareCalls := 0, broadcastCalls := 0 }
    | some oid =>
      if oid = "" then { response := UpdateResponse.missingId, configWrites := [], prepareCalls := 0, broadcastCalls := 0 }
      else
        match env.config with
        | none => { response := UpdateResponse.notFound, configWrites := [], prepareCalls := 0, broadcastCalls := 0 }
        | some cfg =>
          let pmW := backfillPM cfg
          let uiW := backfillUI cfg
          let writes := pmW.2 ++ uiW.2
          match env.chain with
          | none => { response := UpdateResponse.notDeployed, configWrites := writes, prepareCalls := 0, broadcastCalls := 0 }
          | some ch =>
            let currentValue := roundB64 ((ch.value : ℚ))
            match env.api with
            | Except.error msg =>
                { response := UpdateResponse.apiFetchFailed msg, configWrites := writes, prepareCalls := 0, broadcastCalls := 0 }
            | Except.ok apiData =>
              match extractValueFromPath apiData cfg.dataPath with
              | Except.error e =>
                  { response := UpdateResponse.extractionFailed e, configWrites := writes, prepareCalls := 0, broadcastCalls := 0 }
              | Except.ok rawPrice =>
                if jsIsNaN rawPrice then
                  { response := UpdateResponse.invalidPrice, configWrites := writes, prepareCalls := 0, broadcastCalls := 0 }
                else
                  let newValue := jsRoundNum (jsMulNum rawPrice (JsNum.fin pmW.1))
                  if jsIsNaN newValue then
                    { response := UpdateResponse.invalidFinalValue, configWrites := writes, prepareCalls := 0, broadcastCalls := 0 }
                  else if jsStrictEq newValue (JsNum.fin currentValue) then
                    { response := UpdateResponse.skipped (JsNum.fin currentValue) newValue,
                      configWrites := writes, prepareCalls := 0, broadcastCalls := 0 }
                  else
                    -- blockchain phase: getDerivationPath feeds the prepare
                    -- and signing calls whose outcomes the environment holds
                    let _dp := getDerivationPath oid
                    match env.prepare with
                    | Except.error msg =>
                        { response := UpdateResponse.serverError msg,
                          configWrites := writes ++ [errorPatch env.now msg],
                          prepareCalls := 1, broadcastCalls := 0 }
                    | Except.ok _prep =>
                      match env.signBroadcast with
                      | Except.error e =>
                          let msg := mapBroadcastError e
                          { response := UpdateResponse.serverError msg,
                            configWrites := writes ++ [errorPatch env.now msg],
                            prepareCalls := 1, broadcastCalls := 1 }
                      | Except.ok tx =>
                          let validUI := if ratLtB 0 uiW.1 then uiW.1 else 1
                          let nextUpdate := timeClip ((env.now : ℚ) + validUI * 60 * 1000)
                          { response := UpdateResponse.success (JsNum.fin currentValue) newValue tx.hash tx.blockNumber,
                            configWrites := writes ++ [successPatch env.now nextUpdate tx.hash newValue],
                            prepareCalls := 1, broadcastCalls := 1 }
  else { response := UpdateResponse.methodNotAllowed, configWrites := [], prepareCalls := 0, broadcastCalls := 0 }


/-! ## The manual update route (the body-driven update handler importing
`getOracleCreator` and `checkMinimumBalance`) -/

/-- The binary64 value of the JavaScript literal `0.001`, the minimum gas
reserve passed to `checkMinimumBalance` by the manual update route. -/
def minGasReserve : ℚ := roundB64 (1 / 1000)

/-- Outcomes of the external calls made by the manual update route, in
source order. -/
structure ManualEnv where
  method : String
  oracleId : Option String
  /-- `req.body.newValue`, as the string `parseFloat` receives
  (`parseFloat` applies ToString to its argument); `none` is `undefined`. -/
  newValue : Option String
  oracleExistsOnChain : Except String Bool
  derivedAddress : Except String String
  creatorLookup : Except String String
  walletBalance : Except String WalletBalanceInfo
  prepare : Except String PrepareResult
  signBroadcast : Except SBErr TxResult

/-- The HTTP responses of the manual update route. -/
inductive ManualResponse where
  /-- 405, non-POST. -/
  | methodNotAllowed : ManualResponse
  /-- 400, missing oracle id or `newValue`. -/
  | missingFields : ManualResponse
  /-- 400, `parseFloat(newValue)` is NaN. -/
  | invalidNumber : ManualResponse
  /-- 404, oracle not on chain. -/
  | oracleMissing : ManualResponse
  /-- 400, `getOracleCreator` threw. -/
  | creatorCheckFailed : ManualResponse
  /-- 403, "Only the oracle creator can update the oracle". -/
  | notCreator (creator sender : String) : ManualResponse
  /-- 400, "Insufficient balance for gas fees", with the balance, the
  minimum and the shortfall from `checkMinimumBalance`. -/
  | insufficientBalance (balance minAmount shortfall : JsNum) : ManualResponse
  /-- 200. -/
  | success (oracleId : String) (newValue valueInCents : JsNum) (address txHash : String) : ManualResponse
  /-- 500 from the outer catch. -/
  | serverError (msg : String) : ManualResponse
deriving DecidableEq

/-- Result of one invocation of the manual update route (this route never
writes to the config store). -/
structure ManualResult where
  response : ManualResponse
  prepareCalls : Nat
  broadcastCalls : Nat
deriving DecidableEq

/-- The manual update route handler, in source order: method and body
checks, `parseFloat` validation, on-chain existence check, derived-address
lookup, the creator authorization check
(`creatorAddress.toLowerCase() !== address.toLowerCase()` rejects with 403
before any transaction is prepared), the `checkMinimumBalance(address,
0.001)` gate with its shortfall, `valueInCents = Math.floor(numericValue *
100)`, then prepare and sign/broadcast with thrown errors surfacing as 500
responses. -/
def manualUpdateHandler (env : ManualEnv) : ManualResult :=
  if env.method = "POST" then
    match env.oracleId, env.newValue with
    | some oid, some nv =>
      if oid = "" then { response := ManualResponse.missingFields, prepareCalls := 0, broadcastCalls := 0 }
      else
        let numericValue := jsParseFloat nv
        if jsIsNaN numericValue then { response := ManualResponse.invalidNumber, prepareCalls := 0, broadcastCalls := 0 }
        else
          match env.oracleExistsOnChain with
          | Except.error msg => { response := ManualResponse.serverError msg, prepareCalls := 0, broadcastCalls := 0 }
          | Except.ok false => { response := ManualResponse.oracleMissing, prepareCalls := 0, broadcastCalls := 0 }
          | Except.ok true =>
            match env.derivedAddress with
            | Except.error msg => { response := ManualResponse.serverError msg, prepareCalls := 0, broadcastCalls := 0 }
            | Except.ok address =>
              match env.creatorLookup with
              | Except.error _ => { response := ManualResponse.creatorCheckFailed, prepareCalls := 0, broadcastCalls := 0 }
              | Except.ok creatorAddress =>
                if strToLower creatorAddress ≠ strToLower address then
                  { response := ManualResponse.notCreator creatorAddress address, prepareCalls := 0, broadcastCalls := 0 }
                else
                  match env.walletBalance with
                  | Except.error msg => { response := ManualResponse.serverError msg, prepareCalls := 0, broadcastCalls := 0 }
                  | Except.ok info =>
                    let bc := checkMinimumBalance info minGasReserve
                    if bc.hasMinimum = false then
                      { response := ManualResponse.insufficientBalance bc.balance (JsNum.fin bc.minAmount) bc.shortfall,
                        prepareCalls := 0, broadcastCalls := 0 }
                    else
                      let valueInCents := jsFloorNum (jsMulNum numericValue (JsNum.fin 100))
                      match env.prepare with
                      | Except.error msg => { response := ManualResponse.serverError msg, prepareCalls := 1, broadcastCalls := 0 }
                      | Except.ok prep =>
                        match env.signBroadcast with
                        | Except.error e =>
                            { response := ManualResponse.serverError (mapBroadcastError e), prepareCalls := 1, broadcastCalls := 1 }
                        | Except.ok tx =>
                            { response := ManualResponse.success oid numericValue valueInCents prep.senderAddress tx.hash,
                              prepareCalls := 1, broadcastCalls := 1 }
    | _, _ => { response := ManualResponse.missingFields, prepareCalls := 0, broadcastCalls := 0 }
  else { response := ManualResponse.methodNotAllowed, prepareCalls := 0, broadcastCalls := 0 }

/-! ## The scheduler (`utils/scheduler.js`) -/

/-- `calculateNextUpdate(oracle)`: when `lastUpdate` is absent the function
returns a fresh `new Date()` that it reads itself; `evalNow` is the clock
instant of that read (the moment the function body runs). When `lastUpdate`
is present the result is clock-free: `lastUpdate` plus
`(updateInterval || updateIntervalMinutes || 60)` minutes (the sum is
clipped to integral milliseconds by the `Date` constructor). -/
def calculateNextUpdate (evalNow : Int) (oracle : OracleConfig) : Int :=
  match oracle.lastUpdate with
  | none => evalNow
  | some lu =>
      timeClip ((lu : ℚ) + jsOrQ oracle.updateInterval (jsOrQ oracle.updateIntervalMinutes 60) * 60 * 1000)

/-- `getOraclesDueForUpdate()`: `currentTime` is read once, before the loop
over the stored configs. For each config whose oracle the on-chain
existence probe (`getOracle`) confirms, `calculateNextUpdate` runs only
after that awaited probe, so the fresh `new Date()` it reads for a
never-updated config is the later instant `evalNow id`, not `currentTime`.
The oracle is kept when `currentTime >= nextUpdate` (the pushed entry
carries the id and the computed next update time). -/
def getOraclesDueForUpdate (deployed : String → Bool) (currentTime : Int)
    (evalNow : String → Int) (configs : List (String × OracleConfig)) :
    List (String × OracleConfig × Int) :=
  configs.filterMap (fun p =>
    if deployed p.1 then
      let nextUpdate := calculateNextUpdate (evalNow p.1) p.2
      if nextUpdate ≤ currentTime then some (p.1, p.2, nextUpdate) else none
    else none)

/-- The JSON body returned by the update API as `executeOracleUpdate`
observes it. -/
structure ApiUpdateResult where
  success : Bool
  error : Option String
deriving DecidableEq

/-- Result of one `executeOracleUpdate` call: the returned boolean, the
`updatingOracles` set after the call, and whether the update API fetch was
attempted. -/
structure ExecResult where
  result : Bool
  updating : Finset String
  fetchAttempted : Bool
deriving DecidableEq

/-- `executeOracleUpdate(oracleId)` with the module-global `updatingOracles`
set made explicit: an id already in the set returns `false` at once without
touching the set or calling the update API; otherwise the id is inserted,
the update API is called (a thrown fetch error is caught and yields
`false`), and the `finally` block removes the id again on every one of
those paths. -/
def executeOracleUpdate (updatingOracles : Finset String) (oracleId : String)
    (fetchOutcome : Except String ApiUpdateResult) : ExecResult :=
  if oracleId ∈ updatingOracles then
    { result := false, updating := updatingOracles, fetchAttempted := false }
  else
    let s := insert oracleId updatingOracles
    match fetchOutcome with
    | Except.ok r => { result := r.success, updating := s.erase oracleId, fetchAttempted := true }
    | Except.error _ => { result := false, updating := s.erase oracleId, fetchAttempted := true }

/-! ## Claim-side characterization of the path extractor -/

/-- The three error classes the specification assigns to `extract`. -/
inductive SpecExtractErr where
  | pathNotFound : SpecExtractErr
  | notNumeric : SpecExtractErr
  | wrongType : SpecExtractErr
deriving DecidableEq

/-- Classify each thrown message of `extractValueFromPath` into its
specification error class. -/
def errKind : ExtractErr → SpecExtractErr
  | ExtractErr.nullAtStep _ => SpecExtractErr.pathNotFound
  | ExtractErr.nonObjectAtStep _ => SpecExtractErr.pathNotFound
  | ExtractErr.terminalMissing => SpecExtractErr.pathNotFound
  | ExtractErr.notNumericString _ => SpecExtractErr.notNumeric
  | ExtractErr.wrongTypeLeaf => SpecExtractErr.wrongType

/-- Resolution of a dotted path, following the specification's wording:
each segment descends through an object; a `null`/absent value or a
non-object mid-path, and an absent or `null` terminal, are path-not-found. -/
def specResolve : Option Json → List String → Except SpecExtractErr Json
  | none, _ => Except.error SpecExtractErr.pathNotFound
  | some Json.null, _ => Except.error SpecExtractErr.pathNotFound
  | some v, [] => Except.ok v
  | some v, k :: ks =>
      if typeofIsObject v then specResolve (jsLookup v k) ks
      else Except.error SpecExtractErr.pathNotFound

/-- The claim's extraction contract, amended at its one divergence from the
code: a terminal string is numerically coerced by `parseFloat` and rejected
(not-numeric) exactly when the parse is NaN — an infinite parse result is
returned, not rejected; a terminal number is returned exactly; any other
terminal is wrong-type. -/
def specExtractAmended (doc : Json) (path : String) : Except SpecExtractErr JsNum :=
  match specResolve (some doc) (path.splitOn ".") with
  | Except.error e => Except.error e
  | Except.ok (Json.num q) => Except.ok (JsNum.fin q)
  | Except.ok (Json.str s) =>
      match jsParseFloat s with
      | JsNum.nan => Except.error SpecExtractErr.notNumeric
      | v => Except.ok v
  | Except.ok _ => Except.error SpecExtractErr.wrongType

/-- Collapse the loop result of the code to the specification's view: any
thrown descent error, and a missing or `null` final value, are
path-not-found; otherwise the reached leaf. -/
def resolveKind : Except ExtractErr (Option Json) → Except SpecExtractErr Json
  | Except.error _ => Except.error SpecExtractErr.pathNotFound
  | Except.ok none => Except.error SpecExtractErr.pathNotFound
  | Except.ok (some Json.null) => Except.error SpecExtractErr.pathNotFound
  | Except.ok (some v) => Except.ok v

theorem descendLoop_resolveKind (keys : List String) :
    ∀ (i : Nat) (v : Option Json), resolveKind (descendLoop i v keys) = specResolve v keys := by
  induction keys with
  | nil =>
    intro i v
    match v with
    | none => rfl
    | some Json.null => rfl
    | some (Json.num q) => rfl
    | some (Json.str s) => rfl
    | some (Json.bool b) => rfl
    | some (Json.obj fs) => rfl
    | some (Json.arr xs) => rfl
  | cons k ks ih =>
    intro i v
    match v with
    | none => rfl
    | some Json.null => rfl
    | some (Json.num q) => rfl
    | some (Json.str s) => rfl
    | some (Json.bool b) => rfl
    | some (Json.obj fs) =>
        simpa only [descendLoop, specResolve, typeofIsObject, if_true] using ih (i + 1) (jsLookup (Json.obj fs) k)
    | some (Json.arr xs) =>
        simpa only [descendLoop, specResolve, typeofIsObject, if_true] using ih (i + 1) (jsLookup (Json.arr xs) k)

/-! ## Helper lemmas on the binary64 rounding -/

theorem pow2_pos (e : Int) : 0 < pow2 e := by
  unfold pow2
  rw [natPow_eq, natPow_eq]
  split
  · positivity
  · positivity

theorem pow2_le_one (e : Int) (h : e ≤ 0) : pow2 e ≤ 1 := by
  unfold pow2
  rw [natPow_eq, natPow_eq]
  split
  · rename_i h0
    have he : e = 0 := le_antisymm h h0
    subst he
    norm_num
  · rw [div_le_one (by positivity)]
    push_cast
    exact one_le_pow₀ (by norm_num)

theorem roundHalfEven_nonneg (q : ℚ) (h : 0 ≤ q) : 0 ≤ roundHalfEven q := by
  unfold roundHalfEven
  have h0 : (0 : Int) ≤ ⌊q⌋ := Int.floor_nonneg.mpr h
  split
  · exact h0
  · split
    · omega
    · split
      · exact h0
      · omega

theorem roundHalfEven_cast_le (q : ℚ) : ((roundHalfEven q : Int) : ℚ) ≤ q + 1 := by
  unfold roundHalfEven
  have hf : ((⌊q⌋ : Int) : ℚ) ≤ q := Int.floor_le q
  split
  · linarith
  · split
    · push_cast
      linarith
    · split
      · linarith
      · push_cast
        linarith

theorem roundB64pos_nonneg (q : ℚ) (h : 0 ≤ q) : 0 ≤ roundB64pos q := by
  unfold roundB64pos
  have h1 : (0 : ℚ) ≤ ((roundHalfEven (q / pow2 (max (floorLog2 q - 52) (-1074))) : Int) : ℚ) := by
    have h2 := roundHalfEven_nonneg (q / pow2 (max (floorLog2 q - 52) (-1074)))
      (div_nonneg h (pow2_pos _).le)
    exact_mod_cast h2
  exact mul_nonneg h1 (pow2_pos _).le

theorem roundB64_nonneg (q : ℚ) (h : 0 ≤ q) : 0 ≤ roundB64 q := by
  unfold roundB64
  split
  · exact le_refl 0
  · split
    · rename_i h1 h2
      have h3 : q < 0 := (ratLtB_iff q 0).mp h2
      linarith
    · exact roundB64pos_nonneg q h

theorem floorLog2_nonpos (q : ℚ) (hq : 0 < q) (h1 : q ≤ 1) : floorLog2 q ≤ 0 := by
  unfold floorLog2
  split
  · rename_i hge
    have hq1 : q = 1 := le_antisymm h1 ((ratLeB_iff 1 q).mp hge)
    subst hq1
    norm_num
    decide
  · split
    · omega
    · omega

theorem roundB64pos_le_two (q : ℚ) (hq : 0 < q) (h1 : q ≤ 1) : roundB64pos q ≤ 2 := by
  unfold roundB64pos
  set s := max (floorLog2 q - 52) (-1074) with hs
  have hsle : s ≤ 0 := by
    have := floorLog2_nonpos q hq h1
    omega
  have hp : 0 < pow2 s := pow2_pos s
  have hple : pow2 s ≤ 1 := pow2_le_one s hsle
  have hle : ((roundHalfEven (q / pow2 s) : Int) : ℚ) ≤ q / pow2 s + 1 := roundHalfEven_cast_le _
  calc ((roundHalfEven (q / pow2 s) : Int) : ℚ) * pow2 s
      ≤ (q / pow2 s + 1) * pow2 s := by
        apply mul_le_mul_of_nonneg_right hle hp.le
    _ = q + pow2 s := by field_simp
    _ ≤ 1 + 1 := by linarith
    _ = 2 := by norm_num

theorem roundB64_le_two (q : ℚ) (hq : 0 < q) (h1 : q ≤ 1) : roundB64 q ≤ 2 := by
  unfold roundB64
  split
  · norm_num
  · split
    · rename_i hne hlt
      have h3 : q < 0 := (ratLtB_iff q 0).mp hlt
      linarith
    · exact roundB64pos_le_two q hq h1

theorem descendLoop_err (keys : List String) :
    ∀ (i : Nat) (v : Option Json) (e : ExtractErr),
      descendLoop i v keys = Except.error e → errKind e = SpecExtractErr.pathNotFound := by
  induction keys with
  | nil =>
    intro i v e h
    simp [descendLoop] at h
  | cons k ks ih =>
    intro i v e h
    match v with
    | none =>
        rw [show descendLoop i none (k :: ks) = Except.error (ExtractErr.nullAtStep i) from rfl] at h
        injection h with h1
        subst h1
        rfl
    | some Json.null =>
        rw [show descendLoop i (some Json.null) (k :: ks) = Except.error (ExtractErr.nullAtStep i) from rfl] at h
        injection h with h1
        subst h1
        rfl
    | some (Json.num q) =>
        rw [show descendLoop i (some (Json.num q)) (k :: ks)
            = Except.error (ExtractErr.nonObjectAtStep i) from rfl] at h
        injection h with h1
        subst h1
        rfl
    | some (Json.str s) =>
        rw [show descendLoop i (some (Json.str s)) (k :: ks)
            = Except.error (ExtractErr.nonObjectAtStep i) from rfl] at h
        injection h with h1
        subst h1
        rfl
    | some (Json.bool b) =>
        rw [show descendLoop i (some (Json.bool b)) (k :: ks)
            = Except.error (ExtractErr.nonObjectAtStep i) from rfl] at h
        injection h with h1
        subst h1
        rfl
    | some (Json.obj fs) =>
        rw [show descendLoop i (some (Json.obj fs)) (k :: ks)
            = descendLoop (i + 1) (jsLookup (Json.obj fs) k) ks from rfl] at h
        exact ih (i + 1) (jsLookup (Json.obj fs) k) e h
    | some (Json.arr xs) =>
        rw [show descendLoop i (some (Json.arr xs)) (k :: ks)
            = descendLoop (i + 1) (jsLookup (Json.arr xs) k) ks from rfl] at h
        exact ih (i + 1) (jsLookup (Json.arr xs) k) e h

/-! ## Claim C6 -/

/-- C6 (counterexample): for the document with the terminal string
"Infinity" at path "price", the claim demands a not-numeric failure (the
decimal parse yields a non-finite result), but `extractValueFromPath`
returns the infinite value successfully: the code only rejects a NaN
parse. -/
theorem c6_counterexample :
    extractValueFromPath (Json.obj [("price", Json.str "Infinity")]) "price"
      = Except.ok (JsNum.inf true) := by
  with_unfolding_all rfl

/-- C6 (amended): for every JSON document and dotted path, extraction
resolves each segment through objects; a null/absent or non-object
intermediate value — or a null/absent terminal — is a path-not-found error;
a terminal number is returned exactly; a terminal string is numerically
coerced by `parseFloat` and rejected as not-numeric exactly when the parse
is NaN (an infinite parse result is returned, not rejected); any other
terminal is a wrong-type error. -/
theorem c6_extract_characterization (doc : Json) (path : String) :
    Except.mapError errKind (extractValueFromPath doc path) = specExtractAmended doc path := by
  unfold extractValueFromPath specExtractAmended
  rw [← descendLoop_resolveKind (path.splitOn ".") 1 (some doc)]
  cases hd : descendLoop 1 (some doc) (path.splitOn ".") with
  | error e =>
    have he := descendLoop_err (path.splitOn ".") 1 (some doc) e hd
    simp [resolveKind, Except.mapError, he]
  | ok v =>
    match v with
    | none => simp [resolveKind, Except.mapError, errKind]
    | some Json.null => simp [resolveKind, Except.mapError, errKind]
    | some (Json.num q) => simp [resolveKind, Except.mapError]
    | some (Json.str s) =>
      simp only [resolveKind]
      cases hp : jsParseFloat s with
      | nan => simp [Except.mapError, errKind]
      | inf b => simp [Except.mapError]
      | fin q => simp [Except.mapError]
    | some (Json.bool b) => simp [resolveKind, Except.mapError, errKind]
    | some (Json.obj fs) => simp [resolveKind, Except.mapError, errKind]
    | some (Json.arr xs) => simp [resolveKind, Except.mapError, errKind]

/-! ## Claim C5 -/

set_option maxRecDepth 100000 in
/-- C5 (evaluation at the failing input): `convertToDecimal` routes the
sliced decimal string through `parseFloat`, a binary64 intermediate, so for
the 22-digit raw value 1234567890123456789000 with `decimals = 2` (whose
exact rendering is "12345678901234567890.00") the produced integer part is
"12345678901234567168" — not digit-exact, refuting the claim that only
arbitrary-precision or string-based arithmetic touches the raw value. -/
theorem c5_float_eval :
    convertToDecimal 1234567890123456789000 2 6 = "12345678901234567168.000000"
    ∧ convertToDecimal 1234567890123456789000 2 6 ≠ "12345678901234567890.000000" := by
  have h1 : convertToDecimal 1234567890123456789000 2 6 = "12345678901234567168.000000" := by
    with_unfolding_all rfl
  refine ⟨h1, ?_⟩
  rw [h1]
  decide

/-! ## Claim C9 -/

set_option maxRecDepth 100000 in
/-- C9 (counterexample): `convertToDecimal(300000, 2)` uses the default
display precision of 6 decimal places, so it does not yield "3000.00". -/
theorem c9_counterexample : convertToDecimal 300000 2 6 ≠ "3000.00" := by
  have h1 : convertToDecimal 300000 2 6 = "3000.000000" := by with_unfolding_all rfl
  rw [h1]
  decide

set_option maxRecDepth 100000 in
/-- C9 (amended): raw value 300000 with decimals 2 formats as
"3000.000000" at the default 6 display places ("3000.00" requires passing 2
display places explicitly), and with decimals 18 the same raw value
underflows to "0.000000". -/
theorem c9_formatting :
    convertToDecimal 300000 2 6 = "3000.000000"
    ∧ convertToDecimal 300000 2 2 = "3000.00"
    ∧ convertToDecimal 300000 18 6 = "0.000000" :=
  ⟨by with_unfolding_all rfl, by with_unfolding_all rfl, by with_unfolding_all rfl⟩

/-! ## Claim C2 -/

/-- C2 (counterexample): a call for an id already in the updating set exits
on the skip path without removing the id — the set is returned unchanged
and still contains the id, refuting "on every exit path the id is removed
from the set, so after any call completes the id is not in the set". -/
theorem c2_counterexample :
    executeOracleUpdate {"btc-price"} "btc-price" (Except.ok { success := true, error := none })
      = { result := false, updating := {"btc-price"}, fetchAttempted := false }
    ∧ "btc-price" ∈ (executeOracleUpdate {"btc-price"} "btc-price"
        (Except.ok { success := true, error := none })).updating := by
  constructor
  · with_unfolding_all rfl
  · with_unfolding_all decide

/-- C2 (amended): an id already in the updating set makes
`executeOracleUpdate` return a skip result without contacting the update
API and without touching the set (the id stays in the set, held by the
in-flight call that inserted it); for an id not already in the set, the
call contacts the API and — on success, failure and thrown-error outcomes
alike — the `finally` removal leaves the set exactly as it was, so the id
is not in the set afterwards. -/
theorem c2_lock_release (s : Finset String) (id : String) (out : Except String ApiUpdateResult) :
    (id ∈ s → executeOracleUpdate s id out
        = { result := false, updating := s, fetchAttempted := false })
    ∧ (id ∉ s → (executeOracleUpdate s id out).updating = s
        ∧ id ∉ (executeOracleUpdate s id out).updating
        ∧ (executeOracleUpdate s id out).fetchAttempted = true) := by
  constructor
  · intro h
    simp [executeOracleUpdate, h]
  · intro h
    have he : (insert id s).erase id = s := Finset.erase_insert h
    cases out with
    | ok r => simp [executeOracleUpdate, h, he]
    | error e => simp [executeOracleUpdate, h, he]

/-- C2 witness: concrete instantiation of `c2_lock_release` at the empty
set with a successful update outcome. -/
theorem c2_lock_release_witness :
    (executeOracleUpdate ∅ "eth-price" (Except.ok { success := true, error := none })).updating = ∅
    ∧ "eth-price" ∉ (executeOracleUpdate ∅ "eth-price"
        (Except.ok { success := true, error := none })).updating := by
  have h := (c2_lock_release ∅ "eth-price" (Except.ok { success := true, error := none })).2
    (by decide)
  exact ⟨h.1, h.2.1⟩

/-! ## Claim C4 -/

/-- C4: whenever the value computed from the fetched document equals the
currently-read on-chain value, the periodic update route responds with the
successful skip result and makes zero transaction build and zero
sign/broadcast calls (only the backward-compatibility backfills may have
been written). -/
theorem c4_skip_no_transaction (oid : String) (cfg : OracleConfig) (ch : ChainOracle)
    (doc : Json) (prep : Except String PrepareResult) (sb : Except SBErr TxResult)
    (bal : Nat) (now : Int) (v : JsNum)
    (hoid : oid ≠ "")
    (hext : extractValueFromPath doc cfg.dataPath = Except.ok v)
    (hnan : jsIsNaN v = false)
    (heq : jsStrictEq (jsRoundNum (jsMulNum v (JsNum.fin (backfillPM cfg).1)))
      (JsNum.fin (roundB64 ((ch.value : ℚ)))) = true) :
    updateHandler
      { method := "POST"
        oracleId := some oid
        config := some cfg
        chain := some ch
        api := Except.ok doc
        prepare := prep
        signBroadcast := sb
        balanceWei := bal
        now := now }
      = { response := UpdateResponse.skipped (JsNum.fin (roundB64 ((ch.value : ℚ))))
            (jsRoundNum (jsMulNum v (JsNum.fin (backfillPM cfg).1)))
          configWrites := (backfillPM cfg).2 ++ (backfillUI cfg).2
          prepareCalls := 0
          broadcastCalls := 0 } := by
  have hnew : jsIsNaN (jsRoundNum (jsMulNum v (JsNum.fin (backfillPM cfg).1))) = false := by
    cases hc : jsRoundNum (jsMulNum v (JsNum.fin (backfillPM cfg).1)) with
    | nan => rw [hc] at heq; simp [jsStrictEq] at heq
    | inf b => rfl
    | fin q => rfl
  simp only [updateHandler, hext, hnan, hnew, heq, if_neg hoid, if_true, if_false]
  simp

/-- C4 witness: a concrete skip — price 42.5 times multiplier 100 rounds to
4250, equal to the on-chain value. -/
def c4cfg : OracleConfig :=
  { priceMultiplier := some 100
    multiplier := none
    updateInterval := some 60
    updateIntervalMinutes := none
    apiEndpoint := "https://api.example/price"
    dataPath := "data.price"
    lastUpdate := some 0 }

def c4doc : Json := Json.obj [("data", Json.obj [("price", Json.num (85 / 2))])]

def c4chain : ChainOracle :=
  { value := 4250, lastUpdateBlock := 7, creator := "0xaaa", hasError := false, description := "d" }

set_option maxRecDepth 20000 in
/-- C4 witness: `c4_skip_no_transaction` applied at a concrete skipping
environment. -/
theorem c4_skip_no_transaction_witness :
    updateHandler
      { method := "POST"
        oracleId := some "eth-price"
        config := some c4cfg
        chain := some c4chain
        api := Except.ok c4doc
        prepare := Except.ok { senderAddress := "0xbbb" }
        signBroadcast := Except.ok { hash := "0xh", blockNumber := 99 }
        balanceWei := 0
        now := 1000 }
      = { response := UpdateResponse.skipped (JsNum.fin (roundB64 ((c4chain.value : ℚ))))
            (jsRoundNum (jsMulNum (JsNum.fin (85 / 2)) (JsNum.fin (backfillPM c4cfg).1)))
          configWrites := (backfillPM c4cfg).2 ++ (backfillUI c4cfg).2
          prepareCalls := 0
          broadcastCalls := 0 } :=
  c4_skip_no_transaction "eth-price" c4cfg c4chain c4doc
    (Except.ok { senderAddress := "0xbbb" }) (Except.ok { hash := "0xh", blockNumber := 99 })
    0 1000 (JsNum.fin (85 / 2)) (by decide) (by with_unfolding_all rfl) (by rfl)
    (by with_unfolding_all rfl)

/-! ## Claim C3 -/

/-- Environment for the C3 counterexample: a fully-populated config, a
deployed oracle, and an API fetch failure. -/
def c3env : UpdateEnv :=
  { method := "POST"
    oracleId := some "eth-price"
    config := some
      { priceMultiplier := some 100
        multiplier := none
        updateInterval := some 60
        updateIntervalMinutes := none
        apiEndpoint := "https://api.example/price"
        dataPath := "data.price"
        lastUpdate := some 0 }
    chain := some { value := 4250, lastUpdateBlock := 7, creator := "0xaaa", hasError := false, description := "d" }
    api := Except.error "Failed to fetch data from API: network down"
    prepare := Except.ok { senderAddress := "0xbbb" }
    signBroadcast := Except.ok { hash := "0xh", blockNumber := 99 }
    balanceWei := 0
    now := 1000 }

/-- C3 (counterexample): an API fetch failure — a failure after the
on-chain read — returns a 400 response with an empty config-write trace: no
`hasError`, `errorMessage` or `lastErrorAt` is persisted, refuting the
claim that every post-read failure updates the stored config. -/
theorem c3_counterexample :
    updateHandler c3env
      = { response := UpdateResponse.apiFetchFailed "Failed to fetch data from API: network down"
          configWrites := []
          prepareCalls := 0
          broadcastCalls := 0 } := by
  with_unfolding_all rfl

/-- C3 (amended): a failure thrown in the blockchain phase — here a
signing/broadcast failure — is caught by the route's outer catch, which
persists `hasError = true`, the mapped error message and
`lastErrorAt = now` as the final config write and returns a 500 response;
API fetch and extraction failures, by contrast, return an error response
without any such write (see the counterexample). -/
theorem c3_broadcast_error_persisted (oid : String) (cfg : OracleConfig) (ch : ChainOracle)
    (doc : Json) (p : PrepareResult) (e : SBErr) (bal : Nat) (now : Int) (v : JsNum)
    (hoid : oid ≠ "")
    (hext : extractValueFromPath doc cfg.dataPath = Except.ok v)
    (hnan : jsIsNaN v = false)
    (hnew : jsIsNaN (jsRoundNum (jsMulNum v (JsNum.fin (backfillPM cfg).1))) = false)
    (hne : jsStrictEq (jsRoundNum (jsMulNum v (JsNum.fin (backfillPM cfg).1)))
      (JsNum.fin (roundB64 ((ch.value : ℚ)))) = false) :
    updateHandler
      { method := "POST"
        oracleId := some oid
        config := some cfg
        chain := some ch
        api := Except.ok doc
        prepare := Except.ok p
        signBroadcast := Except.error e
        balanceWei := bal
        now := now }
      = { response := UpdateResponse.serverError (mapBroadcastError e)
          configWrites := ((backfillPM cfg).2 ++ (backfillUI cfg).2)
            ++ [errorPatch now (mapBroadcastError e)]
          prepareCalls := 1
          broadcastCalls := 1 } := by
  simp only [updateHandler, hext, hnan, hnew, hne, if_neg hoid, if_true, if_false]
  simp

/-- C3 witness: `c3_broadcast_error_persisted` applied at a concrete
broadcast failure ("nonce too low"). -/
theorem c3_broadcast_error_persisted_witness :
    updateHandler
      { method := "POST"
        oracleId := some "eth-price"
        config := some c4cfg
        chain := some { value := 9999, lastUpdateBlock := 7, creator := "0xaaa", hasError := false, description := "d" }
        api := Except.ok c4doc
        prepare := Except.ok { senderAddress := "0xbbb" }
        signBroadcast := Except.error { message := "nonce too low", details := none }
        balanceWei := 0
        now := 1000 }
      = { response := UpdateResponse.serverError
            (mapBroadcastError { message := "nonce too low", details := none })
          configWrites := ((backfillPM c4cfg).2 ++ (backfillUI c4cfg).2)
            ++ [errorPatch 1000 (mapBroadcastError { message := "nonce too low", details := none })]
          prepareCalls := 1
          broadcastCalls := 1 } :=
  c3_broadcast_error_persisted "eth-price" c4cfg
    { value := 9999, lastUpdateBlock := 7, creator := "0xaaa", hasError := false, description := "d" }
    c4doc { senderAddress := "0xbbb" } { message := "nonce too low", details := none }
    0 1000 (JsNum.fin (85 / 2)) (by decide) (by with_unfolding_all rfl) (by rfl)
    (by with_unfolding_all rfl) (by with_unfolding_all rfl)

/-! ## Claim C10 -/

/-- Environment for the C10 counterexample: the stored config lacks
`priceMultiplier` (a legacy config), and the fetched value times the
backfilled default multiplier equals the on-chain value, so the attempt is
skipped. -/
def c10env : UpdateEnv :=
  { method := "POST"
    oracleId := some "eth-price"
    config := some
      { priceMultiplier := none
        multiplier := none
        updateInterval := some 60
        updateIntervalMinutes := none
        apiEndpoint := "https://api.example/price"
        dataPath := "data.price"
        lastUpdate := some 0 }
    chain := some { value := 425000, lastUpdateBlock := 7, creator := "0xaaa", hasError := false, description := "d" }
    api := Except.ok (Json.obj [("data", Json.obj [("price", Json.num (85 / 2))])])
    prepare := Except.ok { senderAddress := "0xbbb" }
    signBroadcast := Except.ok { hash := "0xh", blockNumber := 99 }
    balanceWei := 0
    now := 1000 }

/-- C10 (counterexample): a skipped attempt on a config with a missing
`priceMultiplier` still writes the backfilled multiplier to the persisted
config, so the config is not "left entirely unchanged". -/
theorem c10_counterexample :
    (updateHandler c10env).response = UpdateResponse.skipped (JsNum.fin 425000) (JsNum.fin 425000)
    ∧ (updateHandler c10env).configWrites ≠ [] := by
  have h : updateHandler c10env
      = { response := UpdateResponse.skipped (JsNum.fin 425000) (JsNum.fin 425000)
          configWrites := [{ ConfigPatch.empty with priceMultiplier := some 10000 }]
          prepareCalls := 0
          broadcastCalls := 0 } := by
    with_unfolding_all rfl
  rw [h]
  exact ⟨rfl, by simp⟩

theorem calculateNextUpdate_mono (cfg : OracleConfig) (t t2 : Int) (h : t ≤ t2)
    (hd : calculateNextUpdate t cfg ≤ t) : calculateNextUpdate t2 cfg ≤ t2 := by
  unfold calculateNextUpdate at hd ⊢
  cases hl : cfg.lastUpdate with
  | none =>
    exact le_refl t2
  | some lu =>
    rw [hl] at hd
    have hd2 : timeClip ((lu : ℚ)
        + jsOrQ cfg.updateInterval (jsOrQ cfg.updateIntervalMinutes 60) * 60 * 1000) ≤ t := hd
    show timeClip ((lu : ℚ)
        + jsOrQ cfg.updateInterval (jsOrQ cfg.updateIntervalMinutes 60) * 60 * 1000) ≤ t2
    omega

/-- C10 (amended): when the attempt is skipped because the computed value
equals the on-chain value and the stored config already carries its
`priceMultiplier` and `updateInterval` fields, the config-write trace is
empty — in particular `lastUpdate`/`nextUpdate` are not advanced — and
due-ness is monotone in time for the unchanged config, so a due oracle
stays due on every later scheduler tick; on legacy configs the skip path
still persists the one-time field backfills (see the counterexample). -/
theorem c10_skip_frame (oid : String) (cfg : OracleConfig) (ch : ChainOracle)
    (doc : Json) (prep : Except String PrepareResult) (sb : Except SBErr TxResult)
    (bal : Nat) (now : Int) (v : JsNum) (pm ui : ℚ)
    (hoid : oid ≠ "")
    (hpm : cfg.priceMultiplier = some pm)
    (hui : cfg.updateInterval = some ui)
    (hext : extractValueFromPath doc cfg.dataPath = Except.ok v)
    (hnan : jsIsNaN v = false)
    (heq : jsStrictEq (jsRoundNum (jsMulNum v (JsNum.fin pm)))
      (JsNum.fin (roundB64 ((ch.value : ℚ)))) = true) :
    (updateHandler
      { method := "POST"
        oracleId := some oid
        config := some cfg
        chain := some ch
        api := Except.ok doc
        prepare := prep
        signBroadcast := sb
        balanceWei := bal
        now := now }).configWrites = []
    ∧ (updateHandler
      { method := "POST"
        oracleId := some oid
        config := some cfg
        chain := some ch
        api := Except.ok doc
        prepare := prep
        signBroadcast := sb
        balanceWei := bal
        now := now }).response
        = UpdateResponse.skipped (JsNum.fin (roundB64 ((ch.value : ℚ))))
            (jsRoundNum (jsMulNum v (JsNum.fin pm)))
    ∧ (∀ t t2 : Int, t ≤ t2 → calculateNextUpdate t cfg ≤ t → calculateNextUpdate t2 cfg ≤ t2) := by
  have hpm1 : (backfillPM cfg).1 = pm := by rw [backfillPM, hpm]
  have hpm2 : (backfillPM cfg).2 = [] := by rw [backfillPM, hpm]
  have hui2 : (backfillUI cfg).2 = [] := by rw [backfillUI, hui]
  have hnew : jsIsNaN (jsRoundNum (jsMulNum v (JsNum.fin pm))) = false := by
    cases hc : jsRoundNum (jsMulNum v (JsNum.fin pm)) with
    | nan => rw [hc] at heq; simp [jsStrictEq] at heq
    | inf b => rfl
    | fin q => rfl
  refine ⟨?_, ?_, fun t t2 ht hd => calculateNextUpdate_mono cfg t t2 ht hd⟩
  · simp only [updateHandler, hext, hnan, hpm1, hpm2, hui2, hnew, heq, if_neg hoid, if_true, if_false]
    simp
  · simp only [updateHandler, hext, hnan, hpm1, hpm2, hui2, hnew, heq, if_neg hoid, if_true, if_false]
    simp

/-- C10 witness: `c10_skip_frame` applied at a concrete skipping
environment with a fully-populated config. -/
theorem c10_skip_frame_witness :
    (updateHandler
      { method := "POST"
        oracleId := some "eth-price"
        config := some c4cfg
        chain := some c4chain
        api := Except.ok c4doc
        prepare := Except.ok { senderAddress := "0xbbb" }
        signBroadcast := Except.ok { hash := "0xh", blockNumber := 99 }
        balanceWei := 0
        now := 1000 }).configWrites = []
    ∧ (updateHandler
      { method := "POST"
        oracleId := some "eth-price"
        config := some c4cfg
        chain := some c4chain
        api := Except.ok c4doc
        prepare := Except.ok { senderAddress := "0xbbb" }
        signBroadcast := Except.ok { hash := "0xh", blockNumber := 99 }
        balanceWei := 0
        now := 1000 }).response
        = UpdateResponse.skipped (JsNum.fin (roundB64 ((c4chain.value : ℚ))))
            (jsRoundNum (jsMulNum (JsNum.fin (85 / 2)) (JsNum.fin 100)))
    ∧ (∀ t t2 : Int, t ≤ t2 → calculateNextUpdate t c4cfg ≤ t → calculateNextUpdate t2 c4cfg ≤ t2) :=
  c10_skip_frame "eth-price" c4cfg c4chain c4doc
    (Except.ok { senderAddress := "0xbbb" }) (Except.ok { hash := "0xh", blockNumber := 99 })
    0 1000 (JsNum.fin (85 / 2)) 100 60 (by decide) (by with_unfolding_all rfl)
    (by with_unfolding_all rfl) (by with_unfolding_all rfl) (by rfl)
    (by with_unfolding_all rfl)

/-! ## Claim C1 -/

/-- Environment for the C1 counterexample: the on-chain creator is
`0xaaa`, the derived sender is `0xbbb`, and the fetched value differs from
the on-chain value, so the periodic route proceeds to build, sign and
broadcast. -/
def c1env : UpdateEnv :=
  { method := "POST"
    oracleId := some "eth-price"
    config := some c4cfg
    chain := some { value := 9999, lastUpdateBlock := 7, creator := "0xaaa", hasError := false, description := "d" }
    api := Except.ok c4doc
    prepare := Except.ok { senderAddress := "0xbbb" }
    signBroadcast := Except.ok { hash := "0xh", blockNumber := 99 }
    balanceWei := 0
    now := 1000 }

/-- C1 (counterexample): with a derived sender (`0xbbb`) different from
the on-chain creator (`0xaaa`), the periodic update route neither fails
with an authorization error nor stops before the transaction: it builds,
signs and broadcasts (one broadcast call) and reports success, refuting
"no signed write is ever submitted by a non-creator sender". -/
theorem c1_counterexample :
    c1env.prepare = Except.ok { senderAddress := "0xbbb" }
    ∧ (Option.map ChainOracle.creator c1env.chain) = some "0xaaa"
    ∧ ("0xbbb" : String) ≠ "0xaaa"
    ∧ (updateHandler c1env).broadcastCalls = 1
    ∧ (updateHandler c1env).response
        = UpdateResponse.success (JsNum.fin 9999) (JsNum.fin 4250) "0xh" 99 := by
  refine ⟨rfl, rfl, by decide, ?_, ?_⟩
  · with_unfolding_all rfl
  · with_unfolding_all rfl

/-- C1 (amended): it is the manual update route (the handler that takes
`oracleId` and `newValue` in the request body) that enforces the creator
check: when the creator address and the derived sender address differ
(case-insensitively), it fails with the 403 authorization response before
any transaction is built or broadcast.  The periodic per-id update route
performs no such check (see the counterexample) and relies on the
contract's own `OnlyCreatorCanUpdate` revert. -/
theorem c1_manual_creator_gate (oid nv addr cr : String)
    (bal : Except String WalletBalanceInfo)
    (prep : Except String PrepareResult) (sb : Except SBErr TxResult)
    (hoid : oid ≠ "")
    (hnum : jsIsNaN (jsParseFloat nv) = false)
    (hneq : strToLower cr ≠ strToLower addr) :
    manualUpdateHandler
      { method := "POST"
        oracleId := some oid
        newValue := some nv
        oracleExistsOnChain := Except.ok true
        derivedAddress := Except.ok addr
        creatorLookup := Except.ok cr
        walletBalance := bal
        prepare := prep
        signBroadcast := sb }
      = { response := ManualResponse.notCreator cr addr, prepareCalls := 0, broadcastCalls := 0 } := by
  simp only [manualUpdateHandler, hnum, if_neg hoid, if_pos hneq, if_true, if_false]
  simp

/-- C1 witness: `c1_manual_creator_gate` applied at a concrete non-creator
sender. -/
theorem c1_manual_creator_gate_witness :
    manualUpdateHandler
      { method := "POST"
        oracleId := some "eth-price"
        newValue := some "42.5"
        oracleExistsOnChain := Except.ok true
        derivedAddress := Except.ok "0xBBB"
        creatorLookup := Except.ok "0xAAA"
        walletBalance := Except.ok { balanceWei := 0, decimals := 18 }
        prepare := Except.ok { senderAddress := "0xBBB" }
        signBroadcast := Except.ok { hash := "0xh", blockNumber := 99 } }
      = { response := ManualResponse.notCreator "0xAAA" "0xBBB", prepareCalls := 0, broadcastCalls := 0 } :=
  c1_manual_creator_gate "eth-price" "42.5" "0xBBB" "0xAAA"
    (Except.ok { balanceWei := 0, decimals := 18 })
    (Except.ok { senderAddress := "0xBBB" }) (Except.ok { hash := "0xh", blockNumber := 99 })
    (by decide) (by with_unfolding_all rfl) (by decide)

/-! ## Claim C7 -/

/-- Environment for the C7 counterexample: the oracle wallet holds zero
wei — far below the 0.001 gas reserve — yet the periodic route has no
balance check; the broadcast is attempted and fails at the node with an
insufficient-funds error. -/
def c7env : UpdateEnv :=
  { method := "POST"
    oracleId := some "eth-price"
    config := some c4cfg
    chain := some { value := 9999, lastUpdateBlock := 7, creator := "0xaaa", hasError := false, description := "d" }
    api := Except.ok c4doc
    prepare := Except.ok { senderAddress := "0xbbb" }
    signBroadcast := Except.error { message := "insufficient funds", details := none }
    balanceWei := 0
    now := 1000 }

/-- C7 (counterexample): with a wallet balance of 0 wei (below the 0.001
minimum), the periodic update route does not fail before broadcasting with
a shortfall-carrying insufficient-funds error: it attempts the broadcast
(one sign/broadcast call) and only then surfaces the node's
insufficient-funds failure as a 500 response carrying no shortfall. -/
theorem c7_counterexample :
    c7env.balanceWei = 0
    ∧ (updateHandler c7env).broadcastCalls = 1
    ∧ (updateHandler c7env).response
        = UpdateResponse.serverError "Insufficient funds for transaction." := by
  refine ⟨rfl, ?_, ?_⟩
  · with_unfolding_all rfl
  · with_unfolding_all rfl

set_option maxHeartbeats 1000000 in
set_option maxRecDepth 40000 in
/-- C7 (amended): it is the manual update route that enforces the 0.001
minimum gas reserve via `checkMinimumBalance`: when the re-parsed display
balance is below the reserve, the route fails before any transaction is
built or broadcast with the insufficient-balance response whose shortfall
`minAmount - balance` is a nonnegative number. -/
theorem c7_manual_balance_gate (oid nv addr cr : String) (info : WalletBalanceInfo)
    (prep : Except String PrepareResult) (sb : Except SBErr TxResult) (b : ℚ)
    (hoid : oid ≠ "")
    (hnum : jsIsNaN (jsParseFloat nv) = false)
    (hcr : strToLower cr = strToLower addr)
    (hbal : jsParseFloat (formatBalance info.balanceWei info.decimals 6) = JsNum.fin b)
    (hb0 : 0 ≤ b) (hlt : b < minGasReserve) :
    manualUpdateHandler
      { method := "POST"
        oracleId := some oid
        newValue := some nv
        oracleExistsOnChain := Except.ok true
        derivedAddress := Except.ok addr
        creatorLookup := Except.ok cr
        walletBalance := Except.ok info
        prepare := prep
        signBroadcast := sb }
      = { response := ManualResponse.insufficientBalance (JsNum.fin b) (JsNum.fin minGasReserve)
            (JsNum.fin (roundB64 (minGasReserve - b)))
          prepareCalls := 0
          broadcastCalls := 0 }
    ∧ 0 ≤ roundB64 (minGasReserve - b) := by
  have hm1 : minGasReserve ≤ 1 := (ratLeB_iff _ _).mp (by with_unfolding_all rfl)
  have hsub_pos : 0 < minGasReserve - b := by linarith
  have hsub_le : minGasReserve - b ≤ 1 := by linarith
  have hnn : 0 ≤ roundB64 (minGasReserve - b) := roundB64_nonneg _ hsub_pos.le
  have hr2 : roundB64 (minGasReserve - b) ≤ 2 := roundB64_le_two _ hsub_pos hsub_le
  have hbig : (2 : ℚ) < b64limit := by
    rw [b64limit, natPow_eq]
    have h2 : (2 : ℕ) < 2 ^ 1024 := by
      calc (2 : ℕ) = 2 ^ 1 := (pow_one 2).symm
      _ < 2 ^ 1024 := Nat.pow_lt_pow_right (by omega) (by omega)
    exact_mod_cast h2
  have hbl_pos : (0 : ℚ) < b64limit := by linarith
  have h1 : ¬ (ratLeB b64limit (roundB64 (minGasReserve - b)) = true) := fun hc =>
    absurd ((ratLeB_iff _ _).mp hc) (by linarith)
  have h2 : ¬ (ratLeB (roundB64 (minGasReserve - b)) (-b64limit) = true) := fun hc =>
    absurd ((ratLeB_iff _ _).mp hc) (by linarith)
  have hrt : ratToJs (minGasReserve - b) = JsNum.fin (roundB64 (minGasReserve - b)) := by
    unfold ratToJs
    rw [if_neg h1, if_neg h2]
  have hge : ratLeB minGasReserve b = false := by
    cases hc : ratLeB minGasReserve b with
    | false => rfl
    | true => exact absurd ((ratLeB_iff _ _).mp hc) (not_le.mpr hlt)
  have hltb : ratLtB b minGasReserve = true := (ratLtB_iff _ _).mpr hlt
  have hne2 : ¬ (strToLower cr ≠ strToLower addr) := fun hx => hx hcr
  refine ⟨?_, hnn⟩
  simp only [manualUpdateHandler, checkMinimumBalance, hbal, hnum, jsGeB, jsLtB, jsSubNum,
    hge, hltb, hrt, if_neg hoid, if_neg hne2, if_true, if_false]
  simp

set_option maxHeartbeats 1000000 in
set_option maxRecDepth 40000 in
/-- C7 witness: `c7_manual_balance_gate` applied at a zero-wei wallet. -/
theorem c7_manual_balance_gate_witness :
    manualUpdateHandler
      { method := "POST"
        oracleId := some "eth-price"
        newValue := some "42.5"
        oracleExistsOnChain := Except.ok true
        derivedAddress := Except.ok "0xBBB"
        creatorLookup := Except.ok "0xBBB"
        walletBalance := Except.ok { balanceWei := 0, decimals := 18 }
        prepare := Except.ok { senderAddress := "0xBBB" }
        signBroadcast := Except.ok { hash := "0xh", blockNumber := 99 } }
      = { response := ManualResponse.insufficientBalance (JsNum.fin 0) (JsNum.fin minGasReserve)
            (JsNum.fin (roundB64 (minGasReserve - 0)))
          prepareCalls := 0
          broadcastCalls := 0 }
    ∧ 0 ≤ roundB64 (minGasReserve - 0) :=
  c7_manual_balance_gate "eth-price" "42.5" "0xBBB" "0xBBB"
    { balanceWei := 0, decimals := 18 }
    (Except.ok { senderAddress := "0xBBB" }) (Except.ok { hash := "0xh", blockNumber := 99 })
    0 (by decide) (by with_unfolding_all rfl) rfl (by with_unfolding_all rfl)
    (le_refl 0) ((ratLtB_iff _ _).mp (by with_unfolding_all rfl))

/-! ## Claim C8 -/

theorem timeClip_coe (n : Int) : timeClip ((n : ℚ)) = n := by
  unfold timeClip
  split
  · exact Int.floor_intCast n
  · rw [← Int.cast_neg, Int.floor_intCast]
    omega

theorem calculateNextUpdate_some (now : Int) (cfg : OracleConfig) (lu : Int) (m : Nat)
    (hl : cfg.lastUpdate = some lu)
    (hint : jsOrQ cfg.updateInterval (jsOrQ cfg.updateIntervalMinutes 60) = (m : ℚ)) :
    calculateNextUpdate now cfg = lu + (m : Int) * 60 * 1000 := by
  unfold calculateNextUpdate
  rw [hl]
  show timeClip ((lu : ℚ) + jsOrQ cfg.updateInterval (jsOrQ cfg.updateIntervalMinutes 60) * 60 * 1000)
    = lu + (m : Int) * 60 * 1000
  rw [hint]
  rw [show ((lu : ℚ) + (m : ℚ) * 60 * 1000) = (((lu + (m : Int) * 60 * 1000 : Int)) : ℚ) by push_cast; ring]
  exact timeClip_coe _

/-- The shape of a config as `addOracleConfig` first persists it: both
variants write `lastUpdate: null`, so a freshly created oracle carries no
`lastUpdate`. -/
def c8cfgNever : OracleConfig :=
  { priceMultiplier := some 10000
    multiplier := none
    updateInterval := some 60
    updateIntervalMinutes := none
    apiEndpoint := "https://api.example/btc"
    dataPath := "data.price"
    lastUpdate := none }

/-- A config whose last update at time 0 with a 60-minute interval is long
past due at the tick considered below. -/
def c8cfgStale : OracleConfig :=
  { priceMultiplier := some 10000
    multiplier := none
    updateInterval := some 60
    updateIntervalMinutes := none
    apiEndpoint := "https://api.example/eth"
    dataPath := "data.price"
    lastUpdate := some 0 }

set_option maxHeartbeats 1000000 in
/-- C8: the code evaluated at the failing input. A scheduler tick captures
`currentTime = 4000000` ms once, then for each config awaits the
`getOracle` probe before calling `calculateNextUpdate`, so the fresh
`new Date()` that `calculateNextUpdate` reads for the never-updated config
lands later, at 4000001 ms. The never-updated oracle's due check compares
`4000000 >= 4000001`, which fails, so it is NOT reported due, although the
claim (and the comment in `calculateNextUpdate` itself) says a
never-updated oracle is immediately due. The stale config, whose
`lastUpdate + interval = 3600000` has passed, is reported as expected. -/
theorem c8_never_updated_not_due :
    getOraclesDueForUpdate (fun _ => true) 4000000 (fun _ => 4000001)
      [("btc-price", c8cfgNever), ("eth-price", c8cfgStale)]
      = [("eth-price", c8cfgStale, 3600000)] := by
  with_unfolding_all rfl
